import Mathlib

/-!
Verification of the ZTNA Agent core (hfyeomans/ztna-agent).

The repository ships the boundary declaration of the Agent
(`src/ios-macos/Shared/PacketProcessor-Bridging-Header.h`); the Rust
implementation behind the opaque `Agent*` handle is not part of the files
under `src/`.  The enumerations (`AgentState`, `AgentResult`) and the
boundary signatures are embedded from the header; the behaviour of each
operation is modelled from the specification (spec.md sections 3 to 8) and
from the contracts written in the header's documentation comments.
-/

namespace ZtnaAgent

/-- Agent connection state, embedded from the `AgentState` enum of the
bridging header (values 0 to 5). -/
inductive AgentState where
  | Disconnected
  | Connecting
  | Connected
  | Draining
  | Closed
  | Error
deriving DecidableEq, Repr

/-- Numeric value of each `AgentState` case, as in the C enum. -/
def AgentState.code : AgentState → Nat
  | .Disconnected => 0
  | .Connecting => 1
  | .Connected => 2
  | .Draining => 3
  | .Closed => 4
  | .Error => 5

/-- Result codes for agent operations, embedded from the `AgentResult`
enum of the bridging header.  The specific QUIC sub-codes (values 10+)
are collapsed into `QuicError`, matching section 7 of the spec where they
are one taxonomy category ("protocol-error" with sub-reasons). -/
inductive AgentResult where
  | Ok
  | InvalidPointer
  | InvalidAddress
  | ConnectionFailed
  | NotConnected
  | BufferTooSmall
  | NoData
  | QuicError
  | PanicCaught
deriving DecidableEq, Repr

/-- An IPv4 address (four bytes) together with a port, the semantic form
of the `(ip, port)` pairs crossing the boundary. -/
structure Addr where
  ip : List Nat
  port : Nat
deriving DecidableEq, Repr

/-- Modelled from the spec: the wire content of one transport packet.  The
real framing lives in the QUIC engine, which section 2 places out of
scope; the model keeps only the three packet effects the spec names — the
handshake-established signal (section 4.1), an application datagram body
(section 4.2), and a QAD address observation (section 4.6). -/
inductive Wire where
  | handshakeDone
  | datagram (payload : List Nat)
  | qad (ip : List Nat) (port : Nat)
deriving DecidableEq, Repr

/-- Modelled from the spec: byte encoding of a wire packet (a tag byte
followed by the body). -/
def encodeWire : Wire → List Nat
  | .handshakeDone => [2]
  | .datagram payload => 0 :: payload
  | .qad ip port => 1 :: (ip.take 4 ++ [port / 256 % 256, port % 256])

/-- Modelled from the spec: decoding of a received packet back into its
wire content. -/
def decodeWire : List Nat → Option Wire
  | 0 :: payload => some (Wire.datagram payload)
  | [2] => some Wire.handshakeDone
  | 1 :: [a, b, c, d, ph, pl] => some (Wire.qad [a, b, c, d] (ph * 256 + pl))
  | _ => none

/-- Active path kind of a P2P peer: 0 = Direct, 1 = Relay, 2 = None, the
values documented on `agent_get_active_path`. -/
inductive PathKind where
  | Direct
  | Relay
  | NoPath
deriving DecidableEq, Repr

/-- Numeric value returned by `agent_get_active_path` for each path kind. -/
def PathKind.code : PathKind → Nat
  | .Direct => 0
  | .Relay => 1
  | .NoPath => 2

/-- Path Record of the Path Monitor (spec section 3 / 4.5): active path
kind, missed-keepalive count, last measured RTT, fallback flag. -/
structure PathRecord where
  activePath : PathKind
  missedKeepalives : Nat
  rttMs : Nat
  inFallback : Bool
deriving DecidableEq, Repr

/-- Modelled from the spec: the "fixed threshold" of consecutive missed
keepalives that demotes a Direct path (section 4.5).  The numeric value is
internal to the missing implementation; the model fixes it at 3. -/
def keepaliveThreshold : Nat := 3

/-- Hole-Punch Session (spec section 3 / 4.4): target service, candidate
addresses, probes still to emit, outstanding emitted probes, the working
address once discovered, and the completion flag. -/
structure HolePunchSession where
  serviceId : String
  candidates : List Addr
  probesToSend : List Addr
  sentProbes : List Addr
  workingAddr : Option Addr
  complete : Bool
deriving DecidableEq, Repr

/-- Modelled from the spec: the Agent root object (spec section 3) —
connection state, handshake flag, remote endpoint, settable local
address, outbound packet queue, inbound datagram queue, registration,
cached QAD observation, transport timer deadline, P2P peer registry and
queue, hole-punch session, and the path record. -/
structure Agent where
  state : AgentState
  handshakeDone : Bool
  remote : Option (String × Nat)
  localAddr : Option Addr
  outQueue : List (List Nat × Nat)
  inDatagrams : List (List Nat)
  registeredService : Option String
  observedAddr : Option Addr
  timeoutDeadline : Option Nat
  p2pPeers : List Addr
  p2pOutQueue : List (List Nat × Addr)
  holePunch : Option HolePunchSession
  path : PathRecord
deriving DecidableEq, Repr

/-- Modelled from the spec: the freshly created Agent — `Disconnected` is
the initial state (section 4.1), every queue and cache is empty, no path
is active. -/
def initAgent : Agent :=
  { state := AgentState.Disconnected
    handshakeDone := false
    remote := none
    localAddr := none
    outQueue := []
    inDatagrams := []
    registeredService := none
    observedAddr := none
    timeoutDeadline := none
    p2pPeers := []
    p2pOutQueue := []
    holePunch := none
    path := { activePath := PathKind.NoPath, missedKeepalives := 0,
              rttMs := 0, inFallback := false } }

/-- Destination port of the intermediate session (0 before connect). -/
def remotePort (a : Agent) : Nat :=
  match a.remote with
  | some hp => hp.2
  | none => 0

/-- Modelled from the spec: `connect` (section 4.1) — a connect request
moves `Disconnected` to `Connecting`; the transition to `Connected`
happens only later, on the engine's established signal. -/
def connectCore (a : Agent) (host : String) (port : Nat) : AgentResult × Agent :=
  if a.state = AgentState.Disconnected then
    (AgentResult.Ok,
      { a with state := AgentState.Connecting, remote := some (host, port) })
  else (AgentResult.Ok, a)

/-- Modelled from the spec: `recv` (section 4.2) — feeds one raw packet to
the session, driving the state machine: the established signal completes
the handshake (`Connecting` to `Connected`, section 4.1), a datagram body
is queued for `recv_datagram`, a QAD payload caches the first observed
address (section 4.6).  It never itself produces output. -/
def recvCore (a : Agent) (data : List Nat) (src : Addr) : AgentResult × Agent :=
  match decodeWire data with
  | some Wire.handshakeDone =>
      if a.state = AgentState.Connecting then
        (AgentResult.Ok,
          { a with state := AgentState.Connected, handshakeDone := true })
      else (AgentResult.Ok, a)
  | some (Wire.datagram payload) =>
      if a.state = AgentState.Connected then
        (AgentResult.Ok, { a with inDatagrams := a.inDatagrams ++ [payload] })
      else (AgentResult.Ok, a)
  | some (Wire.qad ip port) =>
      match a.observedAddr with
      | none => (AgentResult.Ok, { a with observedAddr := some ⟨ip, port⟩ })
      | some _ => (AgentResult.Ok, a)
  | none => (AgentResult.QuicError, a)

/-- Modelled from the spec: `poll` (section 4.2) — drains the explicit
outbound queue one packet per call, in FIFO order; an empty queue is the
no-data result and leaves the Agent untouched. -/
def pollCore (a : Agent) : AgentResult × Agent × Option (List Nat × Nat) :=
  match a.outQueue with
  | [] => (AgentResult.NoData, a, none)
  | p :: rest => (AgentResult.Ok, { a with outQueue := rest }, some p)

/-- Modelled from the spec: `send_datagram` (section 4.2) — fails with
not-connected unless the session is `Connected`; otherwise enqueues the
encoded unreliable datagram on the outbound path. -/
def sendDatagramCore (a : Agent) (data : List Nat) : AgentResult × Agent :=
  if a.state = AgentState.Connected then
    (AgentResult.Ok,
      { a with outQueue :=
          a.outQueue ++ [(encodeWire (Wire.datagram data), remotePort a)] })
  else (AgentResult.NotConnected, a)

/-- Modelled from the spec: `recv_datagram` (section 4.2) — drains the
inbound datagram queue one payload per call until no-data. -/
def recvDatagramCore (a : Agent) : AgentResult × Agent × Option (List Nat) :=
  match a.inDatagrams with
  | [] => (AgentResult.NoData, a, none)
  | d :: rest => (AgentResult.Ok, { a with inDatagrams := rest }, some d)

/-- Modelled from the spec: `on_timeout` (section 4.3) — invoked when the
reported duration elapses; clears a due deadline and does transport
bookkeeping.  The ambient clock is passed explicitly. -/
def onTimeoutCore (a : Agent) (now : Nat) : Agent :=
  match a.timeoutDeadline with
  | some d => if d ≤ now then { a with timeoutDeadline := none } else a
  | none => a

/-- Modelled from the spec: `timeout_ms` (section 4.3) — milliseconds
until the internal transport timer should fire; 0 both when the timer is
due now and when none is pending. -/
def timeoutMsCore (a : Agent) (now : Nat) : Nat :=
  match a.timeoutDeadline with
  | none => 0
  | some d => d - now

/-- Modelled from the spec: `register` (section 6) — fails with
not-connected if the state is not `Connected`; otherwise records the
service registration on the intermediate session. -/
def registerCore (a : Agent) (serviceId : String) : AgentResult × Agent :=
  if a.state = AgentState.Connected then
    (AgentResult.Ok, { a with registeredService := some serviceId })
  else (AgentResult.NotConnected, a)

/-- Modelled from the spec: `send_intermediate_keepalive` — sends a PING
on the intermediate connection, requiring the `Connected` state. -/
def intermediateKeepaliveCore (a : Agent) : AgentResult × Agent :=
  if a.state = AgentState.Connected then (AgentResult.Ok, a)
  else (AgentResult.NotConnected, a)

/-- Modelled from the spec: `set_local_address` — per the header contract,
`AgentResultInvalidPointer` when `ip_len < 4`, otherwise records the
first four address bytes and the port. -/
def setLocalAddrCore (a : Agent) (ip : List Nat) (port : Nat) : AgentResult × Agent :=
  if ip.length < 4 then (AgentResult.InvalidPointer, a)
  else (AgentResult.Ok, { a with localAddr := some ⟨ip.take 4, port⟩ })

/-- Modelled from the spec: `get_observed_address` (section 4.6) — no-data
until the first QAD observation, then the cached value. -/
def getObservedCore (a : Agent) : AgentResult × Option Addr :=
  match a.observedAddr with
  | none => (AgentResult.NoData, none)
  | some x => (AgentResult.Ok, some x)

/-- Modelled from the spec: `connect_p2p` (sections 4.1 and 6) — a P2P
operation, permitted only in the `Connected` state; adds the peer to the
session registry keyed by address (unique key, section 3). -/
def connectP2pCore (a : Agent) (peer : Addr) : AgentResult × Agent :=
  if a.state = AgentState.Connected then
    if peer ∈ a.p2pPeers then (AgentResult.Ok, a)
    else (AgentResult.Ok, { a with p2pPeers := peer :: a.p2pPeers })
  else (AgentResult.NotConnected, a)

/-- Modelled from the spec: `send_datagram_p2p` — permitted only in the
`Connected` state and only toward an established P2P peer. -/
def sendDatagramP2pCore (a : Agent) (data : List Nat) (dest : Addr) :
    AgentResult × Agent :=
  if a.state = AgentState.Connected then
    if dest ∈ a.p2pPeers then
      (AgentResult.Ok,
        { a with p2pOutQueue :=
            a.p2pOutQueue ++ [(encodeWire (Wire.datagram data), dest)] })
    else (AgentResult.NotConnected, a)
  else (AgentResult.NotConnected, a)

/-- Modelled from the spec: `poll_p2p` — drains the P2P outbound queue one
packet per call. -/
def pollP2pCore (a : Agent) : AgentResult × Agent × Option (List Nat × Addr) :=
  match a.p2pOutQueue with
  | [] => (AgentResult.NoData, a, none)
  | p :: rest => (AgentResult.Ok, { a with p2pOutQueue := rest }, some p)

/-- Modelled from the spec: `start_hole_punch` (section 4.4) — sends the
CandidateOffer over the intermediate session (hence requires `Connected`)
and installs a fresh hole-punch session for the service (section 3: a new
negotiation creates a fresh session). -/
def startHolePunchCore (a : Agent) (serviceId : String) : AgentResult × Agent :=
  if a.state = AgentState.Connected then
    (AgentResult.Ok,
      { a with holePunch := some (
          { serviceId := serviceId, candidates := [], probesToSend := [],
             sentProbes := [], workingAddr := none, complete := false }) })
  else (AgentResult.NotConnected, a)

/-- Modelled from the spec: arrival of the Connector's relayed candidate
offer (section 4.4 step 2) — populates the candidate set and schedules a
binding probe per candidate; no further candidates are probed once a
working address is set. -/
def candidatesArrivedCore (a : Agent) (addrs : List Addr) : Agent :=
  match a.holePunch with
  | none => a
  | some s =>
      if s.workingAddr = none then
        { a with holePunch := some (
            { s with candidates := s.candidates ++ addrs,
                      probesToSend := s.probesToSend ++ addrs }) }
      else a

/-- Modelled from the spec: the STUN-like binding request body emitted for
each candidate (section 4.4 step 3). -/
def bindingRequestBytes : List Nat := [4]

/-- Modelled from the spec: a well-formed binding response body
(section 4.4 step 4). -/
def bindingResponseBytes : List Nat := [5]

/-- Modelled from the spec: `poll_binding_request` (section 4.4 step 3) —
yields pending binding probes one at a time, marking each as outstanding;
nothing further is probed once a working address is found. -/
def pollBindingRequestCore (a : Agent) :
    AgentResult × Agent × Option (List Nat × Addr) :=
  match a.holePunch with
  | none => (AgentResult.NoData, a, none)
  | some s =>
      match s.probesToSend with
      | [] => (AgentResult.NoData, a, none)
      | c :: rest =>
          if s.workingAddr = none then
            (AgentResult.Ok,
              { a with holePunch := some (
                  { s with probesToSend := rest, sentProbes := c :: s.sentProbes }) },
              some (bindingRequestBytes, c))
          else (AgentResult.NoData, a, none)

/-- Modelled from the spec: `process_binding_response` (section 4.4
step 4) — the first outstanding candidate whose response round-trip
completes becomes the working address and flags completion; once a
working address is set it is immutable for the session (section 3), so
later responses are ignored. -/
def processBindingResponseCore (a : Agent) (data : List Nat) (src : Addr) :
    AgentResult × Agent :=
  match a.holePunch with
  | none => (AgentResult.Ok, a)
  | some s =>
      if data = bindingResponseBytes ∧ src ∈ s.sentProbes ∧ s.workingAddr = none then
        (AgentResult.Ok,
          { a with holePunch := some (
              { s with workingAddr := some src, complete := true }) })
      else (AgentResult.Ok, a)

/-- Modelled from the spec: `poll_hole_punch` (section 4.4 step 5) —
no-data until a working address exists, then reports it together with the
completion flag; purely observational. -/
def pollHolePunchCore (a : Agent) : AgentResult × Option (Addr × Bool) :=
  match a.holePunch with
  | none => (AgentResult.NoData, none)
  | some s =>
      match s.workingAddr with
      | none => (AgentResult.NoData, none)
      | some w => (AgentResult.Ok, some (w, s.complete))

/-- Modelled from the spec: the Path Monitor's reaction to a missed
keepalive window (section 4.5) — the count increments; once it exceeds the
fixed threshold on a Direct path, the active path demotes to Relay and the
fallback flag is set. -/
def pathMonitorMiss (r : PathRecord) : PathRecord :=
  let m := r.missedKeepalives + 1
  if r.activePath = PathKind.Direct ∧ keepaliveThreshold < m then
    { activePath := PathKind.Relay, missedKeepalives := m,
      rttMs := r.rttMs, inFallback := true }
  else { r with missedKeepalives := m }

/-- Modelled from the spec: the Path Monitor's reaction to a fresh
successful direct-path keepalive round-trip (section 4.5) — the active
path becomes Direct, the fallback flag clears, the missed count resets to
0 and the RTT takes the new sample. -/
def pathMonitorAck (r : PathRecord) (rtt : Nat) : PathRecord :=
  { activePath := PathKind.Direct, missedKeepalives := 0,
    rttMs := rtt, inFallback := false }

/-- Modelled from the spec: a missed-keepalive evaluation on the Agent's
path record. -/
def pathMissCore (a : Agent) : Agent :=
  { a with path := pathMonitorMiss a.path }

/-- Modelled from the spec: a completed direct keepalive round-trip
recorded on the Agent's path record. -/
def pathAckCore (a : Agent) (rtt : Nat) : Agent :=
  { a with path := pathMonitorAck a.path rtt }

/-- Modelled from the spec: the keepalive probe body (the header asks for
a 6-byte buffer). -/
def keepaliveBytes : List Nat := [6, 0, 0, 0, 0, 0]

/-- Modelled from the spec: `poll_keepalive` (section 4.5) — yields the
keepalive probe to send on the current P2P path, no-data without a peer. -/
def pollKeepaliveCore (a : Agent) : AgentResult × Option (Addr × List Nat) :=
  match a.p2pPeers with
  | [] => (AgentResult.NoData, none)
  | p :: _ => (AgentResult.Ok, some (p, keepaliveBytes))

/-!
Boundary functions.  A C handle `Agent*` is embedded as `Option Agent`: a
null or destroyed handle is `none`.  Per the header and spec section 6,
every operation validates the handle and reports a distinct error for a
null handle instead of undefined behaviour.
-/

/-- Boundary `agent_create`: yields a fresh Agent handle. -/
def agent_create (caCertPath : Option String) (verifyPeer : Bool) : Option Agent :=
  some initAgent

/-- Boundary `agent_destroy`: frees the Agent; a null handle is a safe
no-op.  The handle is invalid afterwards. -/
def agent_destroy (h : Option Agent) : Option Agent := none

/-- Boundary `agent_get_state`: NULL-safe, returns `AgentStateError` for a
null handle per the header contract. -/
def agent_get_state (h : Option Agent) : AgentState :=
  match h with
  | none => AgentState.Error
  | some a => a.state

/-- Boundary `agent_connect`. -/
def agent_connect (h : Option Agent) (host : String) (port : Nat) :
    AgentResult × Option Agent :=
  match h with
  | none => (AgentResult.InvalidPointer, none)
  | some a =>
      let r := connectCore a host port
      (r.1, some r.2)

/-- Boundary `agent_set_local_addr`. -/
def agent_set_local_addr (h : Option Agent) (ip : List Nat) (port : Nat) :
    AgentResult × Option Agent :=
  match h with
  | none => (AgentResult.InvalidPointer, none)
  | some a =>
      let r := setLocalAddrCore a ip port
      (r.1, some r.2)

/-- Boundary `agent_is_connected`. -/
def agent_is_connected (h : Option Agent) : Bool :=
  match h with
  | none => false
  | some a => a.state = AgentState.Connected

/-- Boundary `agent_register`. -/
def agent_register (h : Option Agent) (serviceId : String) :
    AgentResult × Option Agent :=
  match h with
  | none => (AgentResult.InvalidPointer, none)
  | some a =>
      let r := registerCore a serviceId
      (r.1, some r.2)

/-- Boundary `agent_send_intermediate_keepalive`. -/
def agent_send_intermediate_keepalive (h : Option Agent) :
    AgentResult × Option Agent :=
  match h with
  | none => (AgentResult.InvalidPointer, none)
  | some a =>
      let r := intermediateKeepaliveCore a
      (r.1, some r.2)

/-- Boundary `agent_recv`. -/
def agent_recv (h : Option Agent) (data : List Nat) (src : Addr) :
    AgentResult × Option Agent :=
  match h with
  | none => (AgentResult.InvalidPointer, none)
  | some a =>
      let r := recvCore a data src
      (r.1, some r.2)

/-- Boundary `agent_poll`. -/
def agent_poll (h : Option Agent) :
    AgentResult × Option Agent × Option (List Nat × Nat) :=
  match h with
  | none => (AgentResult.InvalidPointer, none, none)
  | some a =>
      let r := pollCore a
      (r.1, some r.2.1, r.2.2)

/-- Boundary `agent_send_datagram`. -/
def agent_send_datagram (h : Option Agent) (data : List Nat) :
    AgentResult × Option Agent :=
  match h with
  | none => (AgentResult.InvalidPointer, none)
  | some a =>
      let r := sendDatagramCore a data
      (r.1, some r.2)

/-- Boundary `agent_recv_datagram`. -/
def agent_recv_datagram (h : Option Agent) :
    AgentResult × Option Agent × Option (List Nat) :=
  match h with
  | none => (AgentResult.InvalidPointer, none, none)
  | some a =>
      let r := recvDatagramCore a
      (r.1, some r.2.1, r.2.2)

/-- Boundary `agent_on_timeout`. -/
def agent_on_timeout (h : Option Agent) (now : Nat) : Option Agent :=
  match h with
  | none => none
  | some a => some (onTimeoutCore a now)

/-- Boundary `agent_timeout_ms`: 0 for a null handle (nothing pending). -/
def agent_timeout_ms (h : Option Agent) (now : Nat) : Nat :=
  match h with
  | none => 0
  | some a => timeoutMsCore a now

/-- Boundary `agent_get_observed_address`. -/
def agent_get_observed_address (h : Option Agent) :
    AgentResult × Option Addr :=
  match h with
  | none => (AgentResult.InvalidPointer, none)
  | some a => getObservedCore a

/-- Boundary `agent_connect_p2p`. -/
def agent_connect_p2p (h : Option Agent) (peer : Addr) :
    AgentResult × Option Agent :=
  match h with
  | none => (AgentResult.InvalidPointer, none)
  | some a =>
      let r := connectP2pCore a peer
      (r.1, some r.2)

/-- Boundary `agent_is_p2p_connected`. -/
def agent_is_p2p_connected (h : Option Agent) (peer : Addr) : Bool :=
  match h with
  | none => false
  | some a => peer ∈ a.p2pPeers

/-- Boundary `agent_poll_p2p`. -/
def agent_poll_p2p (h : Option Agent) :
    AgentResult × Option Agent × Option (List Nat × Addr) :=
  match h with
  | none => (AgentResult.InvalidPointer, none, none)
  | some a =>
      let r := pollP2pCore a
      (r.1, some r.2.1, r.2.2)

/-- Boundary `agent_send_datagram_p2p`. -/
def agent_send_datagram_p2p (h : Option Agent) (data : List Nat) (dest : Addr) :
    AgentResult × Option Agent :=
  match h with
  | none => (AgentResult.InvalidPointer, none)
  | some a =>
      let r := sendDatagramP2pCore a data dest
      (r.1, some r.2)

/-- Boundary `agent_start_hole_punch`. -/
def agent_start_hole_punch (h : Option Agent) (serviceId : String) :
    AgentResult × Option Agent :=
  match h with
  | none => (AgentResult.InvalidPointer, none)
  | some a =>
      let r := startHolePunchCore a serviceId
      (r.1, some r.2)

/-- Boundary `agent_poll_hole_punch`. -/
def agent_poll_hole_punch (h : Option Agent) :
    AgentResult × Option (Addr × Bool) :=
  match h with
  | none => (AgentResult.InvalidPointer, none)
  | some a => pollHolePunchCore a

/-- Boundary `agent_poll_binding_request`. -/
def agent_poll_binding_request (h : Option Agent) :
    AgentResult × Option Agent × Option (List Nat × Addr) :=
  match h with
  | none => (AgentResult.InvalidPointer, none, none)
  | some a =>
      let r := pollBindingRequestCore a
      (r.1, some r.2.1, r.2.2)

/-- Boundary `agent_process_binding_response`. -/
def agent_process_binding_response (h : Option Agent) (data : List Nat)
    (src : Addr) : AgentResult × Option Agent :=
  match h with
  | none => (AgentResult.InvalidPointer, none)
  | some a =>
      let r := processBindingResponseCore a data src
      (r.1, some r.2)

/-- Boundary `agent_poll_keepalive`. -/
def agent_poll_keepalive (h : Option Agent) :
    AgentResult × Option (Addr × List Nat) :=
  match h with
  | none => (AgentResult.InvalidPointer, none)
  | some a => pollKeepaliveCore a

/-- Boundary `agent_get_active_path`: 0 = Direct, 1 = Relay, 2 = None;
a null handle reports None. -/
def agent_get_active_path (h : Option Agent) : Nat :=
  match h with
  | none => PathKind.code PathKind.NoPath
  | some a => PathKind.code a.path.activePath

/-- Boundary `agent_is_in_fallback`. -/
def agent_is_in_fallback (h : Option Agent) : Bool :=
  match h with
  | none => false
  | some a => a.path.inFallback

/-- Boundary `agent_get_path_stats`: missed keepalives, RTT, fallback. -/
def agent_get_path_stats (h : Option Agent) :
    AgentResult × Nat × Nat × Bool :=
  match h with
  | none => (AgentResult.InvalidPointer, 0, 0, false)
  | some a => (AgentResult.Ok, a.path.missedKeepalives, a.path.rttMs,
               a.path.inFallback)

/-!
Call traces.  `Call` enumerates the state-mutating boundary calls (the
pure queries return no Agent and so cannot mutate) together with the two
internal Path-Monitor events and the candidate-offer arrival, which the
spec describes but which reach the Agent through the intermediate
session; `step` applies one call, `run` a whole sequence.
-/

/-- One state-mutating call on the Agent. -/
inductive Call where
  | connect (host : String) (port : Nat)
  | setLocalAddr (ip : List Nat) (port : Nat)
  | registerSvc (serviceId : String)
  | keepaliveIntermediate
  | recv (data : List Nat) (src : Addr)
  | poll
  | sendDatagram (data : List Nat)
  | recvDatagram
  | onTimeout (now : Nat)
  | connectP2p (peer : Addr)
  | sendDatagramP2p (data : List Nat) (dest : Addr)
  | pollP2p
  | startHolePunch (serviceId : String)
  | candidatesArrived (addrs : List Addr)
  | pollBindingRequest
  | processBindingResponse (data : List Nat) (src : Addr)
  | pathMiss
  | pathAck (rtt : Nat)
deriving DecidableEq, Repr

/-- State effect of one call on a live Agent. -/
def step (a : Agent) (c : Call) : Agent :=
  match c with
  | Call.connect host port => (connectCore a host port).2
  | Call.setLocalAddr ip port => (setLocalAddrCore a ip port).2
  | Call.registerSvc serviceId => (registerCore a serviceId).2
  | Call.keepaliveIntermediate => (intermediateKeepaliveCore a).2
  | Call.recv data src => (recvCore a data src).2
  | Call.poll => (pollCore a).2.1
  | Call.sendDatagram data => (sendDatagramCore a data).2
  | Call.recvDatagram => (recvDatagramCore a).2.1
  | Call.onTimeout now => onTimeoutCore a now
  | Call.connectP2p peer => (connectP2pCore a peer).2
  | Call.sendDatagramP2p data dest => (sendDatagramP2pCore a data dest).2
  | Call.pollP2p => (pollP2pCore a).2.1
  | Call.startHolePunch serviceId => (startHolePunchCore a serviceId).2
  | Call.candidatesArrived addrs => candidatesArrivedCore a addrs
  | Call.pollBindingRequest => (pollBindingRequestCore a).2.1
  | Call.processBindingResponse data src => (processBindingResponseCore a data src).2
  | Call.pathMiss => pathMissCore a
  | Call.pathAck rtt => pathAckCore a rtt

/-- Run a sequence of calls from a starting Agent. -/
def run (a : Agent) (cs : List Call) : Agent :=
  cs.foldl step a

/-- A call that carries the transport handshake-established signal. -/
def isHandshakeSignal : Call → Bool
  | Call.recv data _ => decodeWire data = some Wire.handshakeDone
  | _ => false

/-- A call that carries a QAD address observation. -/
def isQadSignal : Call → Bool
  | Call.recv data _ =>
      match decodeWire data with
      | some (Wire.qad _ _) => true
      | _ => false
  | _ => false

/-!
Helper lemmas: how one `step` can move the pieces of the Agent state.
-/

/-- A call that does not carry the handshake-established signal leaves the
connection state alone or moves it to `Connecting`. -/
theorem step_state_cases (a : Agent) (c : Call)
    (hc : isHandshakeSignal c = false) :
    (step a c).state = a.state ∨ (step a c).state = AgentState.Connecting := by
  cases c <;>
    simp only [step, connectCore, setLocalAddrCore, registerCore,
      intermediateKeepaliveCore, recvCore, pollCore, sendDatagramCore,
      recvDatagramCore, onTimeoutCore, connectP2pCore, sendDatagramP2pCore,
      pollP2pCore, startHolePunchCore, candidatesArrivedCore,
      pollBindingRequestCore, processBindingResponseCore, pathMissCore,
      pathAckCore, isHandshakeSignal] at hc ⊢ <;>
    (repeat' split) <;> simp_all

/-- A call that does not carry a QAD observation leaves an empty
observed-address cache empty. -/
theorem step_observed_none (a : Agent) (c : Call)
    (hc : isQadSignal c = false) (h : a.observedAddr = none) :
    (step a c).observedAddr = none := by
  cases c <;>
    simp only [step, connectCore, setLocalAddrCore, registerCore,
      intermediateKeepaliveCore, recvCore, pollCore, sendDatagramCore,
      recvDatagramCore, onTimeoutCore, connectP2pCore, sendDatagramP2pCore,
      pollP2pCore, startHolePunchCore, candidatesArrivedCore,
      pollBindingRequestCore, processBindingResponseCore, pathMissCore,
      pathAckCore, isQadSignal] at hc ⊢ <;>
    (repeat' split) <;> simp_all

/-- No call ever changes the observed address once it is cached. -/
theorem step_observed_some (a : Agent) (c : Call) (x : Addr)
    (h : a.observedAddr = some x) :
    (step a c).observedAddr = some x := by
  cases c <;>
    simp only [step, connectCore, setLocalAddrCore, registerCore,
      intermediateKeepaliveCore, recvCore, pollCore, sendDatagramCore,
      recvDatagramCore, onTimeoutCore, connectP2pCore, sendDatagramP2pCore,
      pollP2pCore, startHolePunchCore, candidatesArrivedCore,
      pollBindingRequestCore, processBindingResponseCore, pathMissCore,
      pathAckCore] <;>
    (repeat' split) <;> simp_all

/-- Working address visible through the hole-punch session, if any. -/
def workingOf (a : Agent) : Option Addr :=
  match a.holePunch with
  | none => none
  | some s => s.workingAddr

/-- Calls whose step can touch the hole-punch session. -/
def touchesHolePunch : Call → Bool
  | Call.startHolePunch _ => true
  | Call.candidatesArrived _ => true
  | Call.pollBindingRequest => true
  | Call.processBindingResponse _ _ => true
  | _ => false

/-- A call outside the hole-punch operations leaves the hole-punch
session untouched. -/
theorem step_holePunch_eq (a : Agent) (c : Call)
    (h : touchesHolePunch c = false) :
    (step a c).holePunch = a.holePunch := by
  cases c <;> simp only [touchesHolePunch] at h <;>
    simp only [step, connectCore, setLocalAddrCore, registerCore,
      intermediateKeepaliveCore, recvCore, pollCore, sendDatagramCore,
      recvDatagramCore, onTimeoutCore, connectP2pCore, sendDatagramP2pCore,
      pollP2pCore, pathMissCore, pathAckCore] <;>
    (repeat' split) <;> simp_all

/-- Once the hole-punch working address is set, no call other than
starting a fresh negotiation can change it. -/
theorem step_working_addr (a : Agent) (c : Call) (w : Addr)
    (h : workingOf a = some w)
    (hc : ∀ sid, c ≠ Call.startHolePunch sid) :
    workingOf (step a c) = some w := by
  cases hh : a.holePunch with
  | none => simp [workingOf, hh] at h
  | some s =>
      have hw : s.workingAddr = some w := by
        simpa [workingOf, hh] using h
      cases htc : touchesHolePunch c with
      | false => simpa [workingOf, step_holePunch_eq a c htc, hh] using hw
      | true =>
          cases c <;> simp [touchesHolePunch] at htc
          case startHolePunch sid => exact absurd rfl (hc sid)
          case candidatesArrived addrs =>
              simp [step, candidatesArrivedCore, workingOf, hh, hw]
          case pollBindingRequest =>
              cases hp : s.probesToSend with
              | nil => simp [step, pollBindingRequestCore, workingOf, hh, hp, hw]
              | cons cand rest =>
                  simp [step, pollBindingRequestCore, workingOf, hh, hp, hw]
          case processBindingResponse data src =>
              simp [step, processBindingResponseCore, workingOf, hh, hw]

/-- On a Relay path, only a fresh successful direct keepalive round-trip
(the `pathAck` event) can change the active path. -/
theorem step_relay (a : Agent) (c : Call)
    (h : a.path.activePath = PathKind.Relay)
    (hc : ∀ rtt, c ≠ Call.pathAck rtt) :
    (step a c).path.activePath = PathKind.Relay := by
  cases c <;>
    first
      | exact absurd rfl (hc _)
      | (simp only [step, connectCore, setLocalAddrCore, registerCore,
          intermediateKeepaliveCore, recvCore, pollCore, sendDatagramCore,
          recvDatagramCore, onTimeoutCore, connectP2pCore,
          sendDatagramP2pCore, pollP2pCore, startHolePunchCore,
          candidatesArrivedCore, pollBindingRequestCore,
          processBindingResponseCore, pathMissCore, pathMonitorMiss] <;>
         (repeat' split) <;> simp_all)

/-- A state that is not `Connected` stays away from `Connected` under any
sequence of calls free of the handshake-established signal. -/
theorem run_state_ne (cs : List Call) (a : Agent)
    (h : a.state ≠ AgentState.Connected)
    (hcs : ∀ c ∈ cs, isHandshakeSignal c = false) :
    (run a cs).state ≠ AgentState.Connected := by
  induction cs generalizing a with
  | nil => exact h
  | cons c cs ih =>
      have hc := hcs c (List.mem_cons_self c cs)
      have hstep : (step a c).state ≠ AgentState.Connected := by
        rcases step_state_cases a c hc with h1 | h1 <;> simp [h1, h]
      simpa only [run, List.foldl] using
        ih (step a c) hstep (fun d hd => hcs d (List.mem_cons_of_mem c hd))

/-- An empty observed-address cache stays empty under any sequence of
calls free of QAD observations. -/
theorem run_observed_none (cs : List Call) (a : Agent)
    (h : a.observedAddr = none)
    (hcs : ∀ c ∈ cs, isQadSignal c = false) :
    (run a cs).observedAddr = none := by
  induction cs generalizing a with
  | nil => exact h
  | cons c cs ih =>
      simpa only [run, List.foldl] using
        ih (step a c)
          (step_observed_none a c (hcs c (List.mem_cons_self c cs)) h)
          (fun d hd => hcs d (List.mem_cons_of_mem c hd))

/-- Iterated `poll` state (the packet pump drained `n` times). -/
def pollIter : Nat → Agent → Agent
  | 0, a => a
  | n + 1, a => pollIter n (pollCore a).2.1

/-- After at least `outQueue.length` polls, the pump reports no-data. -/
theorem pollIter_drain (m : Nat) (a : Agent) (h : a.outQueue.length ≤ m) :
    (pollCore (pollIter m a)).1 = AgentResult.NoData := by
  induction m generalizing a with
  | zero =>
      have hq : a.outQueue = [] :=
        List.length_eq_zero.mp (Nat.le_zero.mp h)
      simp [pollIter, pollCore, hq]
  | succ n ih =>
      cases hq : a.outQueue with
      | nil =>
          have : (pollCore a).2.1 = a := by simp [pollCore, hq]
          simpa [pollIter, this] using ih a (by simp [hq])
      | cons p rest =>
          have : (pollCore a).2.1 = { a with outQueue := rest } := by
            simp [pollCore, hq]
          have hlen : rest.length ≤ n := by
            simp [hq] at h
            omega
          simpa [pollIter, this] using
            ih { a with outQueue := rest } (by simpa using hlen)

/-- A discovered working address survives any call sequence that starts
no fresh negotiation. -/
theorem run_working_addr (cs : List Call) (a : Agent) (w : Addr)
    (h : workingOf a = some w)
    (hcs : ∀ c ∈ cs, ∀ sid, c ≠ Call.startHolePunch sid) :
    workingOf (run a cs) = some w := by
  induction cs generalizing a with
  | nil => exact h
  | cons c cs ih =>
      simpa only [run, List.foldl] using
        ih (step a c)
          (step_working_addr a c w h (hcs c (List.mem_cons_self c cs)))
          (fun d hd => hcs d (List.mem_cons_of_mem c hd))

/-- Decoding inverts encoding on datagram packets. -/
theorem decode_encode_datagram (B : List Nat) :
    decodeWire (encodeWire (Wire.datagram B)) = some (Wire.datagram B) := rfl

/-- One poll pops exactly one packet, an empty pump is stable no-data. -/
def PollContract (b : Agent) : Prop :=
  ((pollCore b).1 = AgentResult.Ok →
      ((pollCore b).2.1).outQueue.length + 1 = b.outQueue.length) ∧
  (∀ m, b.outQueue.length ≤ m →
      (pollCore (pollIter m b)).1 = AgentResult.NoData) ∧
  ((pollCore b).1 = AgentResult.NoData →
      (pollCore b).2.1 = b ∧
      (pollCore ((pollCore b).2.1)).1 = AgentResult.NoData)

/-- Every Agent state satisfies the poll contract. -/
theorem pollContract_all (b : Agent) : PollContract b := by
  refine ⟨?_, fun m hm => pollIter_drain m b hm, ?_⟩
  · cases hq : b.outQueue <;> simp [pollCore, hq]
  · cases hq : b.outQueue <;> simp [pollCore, hq]

/-!
Concrete fixtures used by the witnesses.
-/

def addr0 : Addr := ⟨[127, 0, 0, 1], 4433⟩

def addr1 : Addr := ⟨[10, 0, 0, 1], 5000⟩

def addr2 : Addr := ⟨[10, 0, 0, 2], 5001⟩

def handshakePacket : List Nat := encodeWire Wire.handshakeDone

/-- A connected Agent (handshake already completed). -/
def connAgent : Agent :=
  { initAgent with state := AgentState.Connected, handshakeDone := true,
                   remote := some ("relay.example", 443) }

/-- Connect then receive the established signal. -/
def demoCalls : List Call :=
  [Call.connect "relay.example" 443, Call.recv handshakePacket addr0]

/-- A hole-punch session with two outstanding probes and no success yet. -/
def hpSession : HolePunchSession :=
  { serviceId := "svc-42", candidates := [addr1, addr2], probesToSend := [],
    sentProbes := [addr1, addr2], workingAddr := none, complete := false }

def hpAgent : Agent := { connAgent with holePunch := some hpSession }

/-- A Direct path exactly at the missed-keepalive threshold. -/
def edgeAgent : Agent :=
  { connAgent with path :=
      { activePath := PathKind.Direct, missedKeepalives := keepaliveThreshold,
        rttMs := 12, inFallback := false } }

/-!
Claim theorems.
-/

/-- C1: over every call sequence from creation, `agent_get_state` reports
`Connected` only if the sequence contains the transport
handshake-established signal; and registration, datagram send, and the
P2P operations return `Ok` only when the state is `Connected`. -/
theorem stateMachineSafety :
    (∀ cs : List Call,
        agent_get_state (some (run initAgent cs)) = AgentState.Connected →
        ∃ c ∈ cs, isHandshakeSignal c = true) ∧
    (∀ a serviceId, (registerCore a serviceId).1 = AgentResult.Ok →
        a.state = AgentState.Connected) ∧
    (∀ a data, (sendDatagramCore a data).1 = AgentResult.Ok →
        a.state = AgentState.Connected) ∧
    (∀ a peer, (connectP2pCore a peer).1 = AgentResult.Ok →
        a.state = AgentState.Connected) ∧
    (∀ a data dest, (sendDatagramP2pCore a data dest).1 = AgentResult.Ok →
        a.state = AgentState.Connected) ∧
    (∀ a serviceId, (startHolePunchCore a serviceId).1 = AgentResult.Ok →
        a.state = AgentState.Connected) := by
  refine ⟨?_, ?_, ?_, ?_, ?_, ?_⟩
  · intro cs h
    by_contra hno
    push_neg at hno
    have hcs : ∀ c ∈ cs, isHandshakeSignal c = false := by
      intro c hmem
      simpa using hno c hmem
    exact run_state_ne cs initAgent (by decide) hcs
      (by simpa [agent_get_state] using h)
  · intro a serviceId h
    by_contra hs
    simp [registerCore, hs] at h
  · intro a data h
    by_contra hs
    simp [sendDatagramCore, hs] at h
  · intro a peer h
    by_contra hs
    simp [connectP2pCore, hs] at h
  · intro a data dest h
    by_contra hs
    simp [sendDatagramP2pCore, hs] at h
  · intro a serviceId h
    by_contra hs
    simp [startHolePunchCore, hs] at h

/-- Witness for C1 at a concrete trace: reaching `Connected` exhibits the
handshake signal inside the trace. -/
theorem stateMachineSafety_found :
    ∃ c ∈ demoCalls, isHandshakeSignal c = true :=
  stateMachineSafety.1 demoCalls (by decide)

/-- C2: every boundary operation called on a null or destroyed handle
returns its distinct defined error result — `agent_get_state` reports
`AgentStateError`, `agent_destroy` is a safe no-op, and every other
operation reports invalid-pointer or its defined null default — never
undefined behaviour. -/
theorem nullHandleSafety (host serviceId : String) (port now : Nat)
    (data ip : List Nat) (src dest : Addr) :
    agent_get_state none = AgentState.Error ∧
    (∀ h : Option Agent, agent_destroy h = none) ∧
    agent_connect none host port = (AgentResult.InvalidPointer, none) ∧
    agent_set_local_addr none ip port = (AgentResult.InvalidPointer, none) ∧
    agent_is_connected none = false ∧
    agent_register none serviceId = (AgentResult.InvalidPointer, none) ∧
    agent_send_intermediate_keepalive none = (AgentResult.InvalidPointer, none) ∧
    agent_recv none data src = (AgentResult.InvalidPointer, none) ∧
    agent_poll none = (AgentResult.InvalidPointer, none, none) ∧
    agent_send_datagram none data = (AgentResult.InvalidPointer, none) ∧
    agent_recv_datagram none = (AgentResult.InvalidPointer, none, none) ∧
    agent_on_timeout none now = none ∧
    agent_timeout_ms none now = 0 ∧
    agent_get_observed_address none = (AgentResult.InvalidPointer, none) ∧
    agent_connect_p2p none dest = (AgentResult.InvalidPointer, none) ∧
    agent_is_p2p_connected none dest = false ∧
    agent_poll_p2p none = (AgentResult.InvalidPointer, none, none) ∧
    agent_send_datagram_p2p none data dest = (AgentResult.InvalidPointer, none) ∧
    agent_start_hole_punch none serviceId = (AgentResult.InvalidPointer, none) ∧
    agent_poll_hole_punch none = (AgentResult.InvalidPointer, none) ∧
    agent_poll_binding_request none = (AgentResult.InvalidPointer, none, none) ∧
    agent_process_binding_response none data src = (AgentResult.InvalidPointer, none) ∧
    agent_poll_keepalive none = (AgentResult.InvalidPointer, none) ∧
    agent_get_active_path none = 2 ∧
    agent_is_in_fallback none = false ∧
    agent_get_path_stats none = (AgentResult.InvalidPointer, 0, 0, false) :=
  ⟨rfl, fun _ => rfl, rfl, rfl, rfl, rfl, rfl, rfl, rfl, rfl, rfl, rfl, rfl,
   rfl, rfl, rfl, rfl, rfl, rfl, rfl, rfl, rfl, rfl, rfl, rfl, rfl⟩

/-- C3: `agent_register` and `agent_send_datagram` return the
not-connected error and leave the Agent unchanged whenever the state is
not `Connected`; they can return `Ok` only in `Connected`; and neither
ever changes the connection state. -/
theorem notConnectedGating (a : Agent) (serviceId : String) (data : List Nat) :
    (a.state ≠ AgentState.Connected →
        registerCore a serviceId = (AgentResult.NotConnected, a) ∧
        sendDatagramCore a data = (AgentResult.NotConnected, a)) ∧
    ((registerCore a serviceId).1 = AgentResult.Ok →
        a.state = AgentState.Connected) ∧
    ((sendDatagramCore a data).1 = AgentResult.Ok →
        a.state = AgentState.Connected) ∧
    (registerCore a serviceId).2.state = a.state ∧
    (sendDatagramCore a data).2.state = a.state := by
  refine ⟨?_, ?_, ?_, ?_, ?_⟩
  · intro hs
    constructor <;> simp [registerCore, sendDatagramCore, hs]
  · intro h
    by_contra hs
    simp [registerCore, hs] at h
  · intro h
    by_contra hs
    simp [sendDatagramCore, hs] at h
  · unfold registerCore
    split <;> rfl
  · unfold sendDatagramCore
    split <;> rfl

/-- Witness for C3: the not-yet-connected fresh Agent refuses both
operations and stays unchanged. -/
theorem notConnectedGating_check :
    registerCore initAgent "svc-42" = (AgentResult.NotConnected, initAgent) ∧
    sendDatagramCore initAgent [1] = (AgentResult.NotConnected, initAgent) :=
  (notConnectedGating initAgent "svc-42" [1]).1 (by decide)

/-- C4: after any `recv` or `on_timeout`, each poll yields at most one
packet (an `Ok` poll shrinks the queue by exactly one), enough repeated
polls reach no-data, and a no-data poll leaves the Agent unchanged so a
further poll stays no-data until new input arrives. -/
theorem pollDrainsToNoData (a : Agent) (data : List Nat) (src : Addr)
    (now : Nat) :
    PollContract ((recvCore a data src).2) ∧
    PollContract (onTimeoutCore a now) :=
  ⟨pollContract_all _, pollContract_all _⟩

/-- Witness for C4: the fresh Agent's pump reports no-data at once after
a timeout event. -/
theorem pollDrainsToNoData_check :
    (pollCore (pollIter 0 (onTimeoutCore initAgent 0))).1 =
      AgentResult.NoData :=
  (pollDrainsToNoData initAgent [] addr0 0).2.2.1 0 (by decide)

/-- C5: a datagram of bytes `B` sent on a Connected session, carried by
the packet produced by `poll` and fed to a Connected peer via `recv`, is
delivered byte-for-byte by the peer's `recv_datagram`. -/
theorem datagramRoundTrip (B : List Nat) (a peer : Agent) (src : Addr)
    (ha : a.state = AgentState.Connected) (hq : a.outQueue = [])
    (hp : peer.state = AgentState.Connected) (hd : peer.inDatagrams = []) :
    (sendDatagramCore a B).1 = AgentResult.Ok ∧
    ∃ pkt port,
      (pollCore (sendDatagramCore a B).2).1 = AgentResult.Ok ∧
      (pollCore (sendDatagramCore a B).2).2.2 = some (pkt, port) ∧
      ((pollCore (sendDatagramCore a B).2).2.1).outQueue = [] ∧
      (recvCore peer pkt src).1 = AgentResult.Ok ∧
      (recvDatagramCore (recvCore peer pkt src).2).1 = AgentResult.Ok ∧
      (recvDatagramCore (recvCore peer pkt src).2).2.2 = some B := by
  refine ⟨by simp [sendDatagramCore, ha], ?_⟩
  refine ⟨encodeWire (Wire.datagram B), remotePort a, ?_, ?_, ?_, ?_, ?_, ?_⟩ <;>
    simp [sendDatagramCore, pollCore, recvCore, recvDatagramCore,
      decode_encode_datagram, ha, hq, hp, hd]

/-- Witness for C5 on a concrete connected pair and payload. -/
theorem datagramRoundTrip_check :
    (sendDatagramCore connAgent [9, 8, 7]).1 = AgentResult.Ok :=
  (datagramRoundTrip [9, 8, 7] connAgent connAgent addr0 rfl rfl rfl rfl).1

/-- C6: the first outstanding candidate whose binding response arrives
becomes the working address, reported complete by `poll_hole_punch`; once
set, later responses change nothing, no further probes are emitted, and
the address survives every call that does not start a new negotiation. -/
theorem holePunchFirstSuccessWins :
    (∀ a s src, a.holePunch = some s → s.workingAddr = none →
        src ∈ s.sentProbes →
        workingOf ((processBindingResponseCore a bindingResponseBytes src).2) =
          some src ∧
        (pollHolePunchCore
            ((processBindingResponseCore a bindingResponseBytes src).2)).1 =
          AgentResult.Ok ∧
        (pollHolePunchCore
            ((processBindingResponseCore a bindingResponseBytes src).2)).2 =
          some (src, true)) ∧
    (∀ a w data src, workingOf a = some w →
        (processBindingResponseCore a data src).2 = a) ∧
    (∀ a w, workingOf a = some w →
        (pollBindingRequestCore a).2.2 = none) ∧
    (∀ cs a w, workingOf a = some w →
        (∀ c ∈ cs, ∀ sid, c ≠ Call.startHolePunch sid) →
        workingOf (run a cs) = some w) := by
  refine ⟨?_, ?_, ?_, fun cs a w h hcs => run_working_addr cs a w h hcs⟩
  · intro a s src hh hw hsrc
    refine ⟨?_, ?_, ?_⟩ <;>
      simp [processBindingResponseCore, pollHolePunchCore, workingOf,
        hh, hw, hsrc]
  · intro a w data src h
    cases hh : a.holePunch with
    | none => simp [processBindingResponseCore, hh]
    | some s =>
        have hw : s.workingAddr = some w := by simpa [workingOf, hh] using h
        simp [processBindingResponseCore, hh, hw]
  · intro a w h
    cases hh : a.holePunch with
    | none => simp [pollBindingRequestCore, hh]
    | some s =>
        have hw : s.workingAddr = some w := by simpa [workingOf, hh] using h
        cases hp : s.probesToSend with
        | nil => simp [pollBindingRequestCore, hh, hp]
        | cons cand rest => simp [pollBindingRequestCore, hh, hp, hw]

/-- Witness for C6: the probe response from the first succeeding
candidate completes the negotiation with that address. -/
theorem holePunchFirstSuccessWins_check :
    (pollHolePunchCore
        ((processBindingResponseCore hpAgent bindingResponseBytes addr1).2)).2 =
      some (addr1, true) :=
  (holePunchFirstSuccessWins.1 hpAgent hpSession addr1 rfl rfl (by decide)).2.2

/-- C7: a missed keepalive that pushes the count past the fixed threshold
on a Direct path makes `agent_get_active_path` report Relay and
`agent_is_in_fallback` true; a fresh successful direct keepalive
round-trip reverts to Direct with the fallback flag cleared and the
missed count reset to 0; and a Relay path changes only on that event. -/
theorem fallbackHysteresis :
    (∀ a, a.path.activePath = PathKind.Direct →
        keepaliveThreshold ≤ a.path.missedKeepalives →
        agent_get_active_path (some (pathMissCore a)) = 1 ∧
        agent_is_in_fallback (some (pathMissCore a)) = true) ∧
    (∀ a rtt,
        agent_get_active_path (some (pathAckCore a rtt)) = 0 ∧
        agent_is_in_fallback (some (pathAckCore a rtt)) = false ∧
        agent_get_path_stats (some (pathAckCore a rtt)) =
          (AgentResult.Ok, 0, rtt, false)) ∧
    (∀ a c, a.path.activePath = PathKind.Relay →
        (∀ rtt, c ≠ Call.pathAck rtt) →
        (step a c).path.activePath = PathKind.Relay) := by
  refine ⟨?_, ?_, fun a c h hc => step_relay a c h hc⟩
  · intro a hdir hm
    have hcross : keepaliveThreshold < a.path.missedKeepalives + 1 :=
      Nat.lt_succ_of_le hm
    constructor <;>
      simp [agent_get_active_path, agent_is_in_fallback, pathMissCore,
        pathMonitorMiss, hdir, hcross, PathKind.code]
  · intro a rtt
    refine ⟨?_, ?_, ?_⟩ <;>
      simp [agent_get_active_path, agent_is_in_fallback,
        agent_get_path_stats, pathAckCore, pathMonitorAck, PathKind.code]

/-- Witness for C7 at the threshold edge: one more miss demotes the
Direct path to Relay and sets the fallback flag. -/
theorem fallbackHysteresis_check :
    agent_get_active_path (some (pathMissCore edgeAgent)) = 1 ∧
    agent_is_in_fallback (some (pathMissCore edgeAgent)) = true :=
  fallbackHysteresis.1 edgeAgent rfl (by decide)

/-- C8: `agent_get_observed_address` reports no-data on every call before
the first QAD observation; the first observation caches the carried
address; and once cached the value is preserved by every call and is what
every later query returns. -/
theorem observedAddressCaching :
    (∀ cs, (∀ c ∈ cs, isQadSignal c = false) →
        agent_get_observed_address (some (run initAgent cs)) =
          (AgentResult.NoData, none)) ∧
    (∀ a data src ip port, decodeWire data = some (Wire.qad ip port) →
        a.observedAddr = none →
        (recvCore a data src).2.observedAddr = some ⟨ip, port⟩) ∧
    (∀ a x, a.observedAddr = some x →
        agent_get_observed_address (some a) = (AgentResult.Ok, some x)) ∧
    (∀ a x c, a.observedAddr = some x → (step a c).observedAddr = some x) := by
  refine ⟨?_, ?_, ?_, fun a x c h => step_observed_some a c x h⟩
  · intro cs hcs
    have hnone := run_observed_none cs initAgent rfl hcs
    simp [agent_get_observed_address, getObservedCore, hnone]
  · intro a data src ip port hdec hnone
    simp [recvCore, hdec, hnone]
  · intro a x h
    simp [agent_get_observed_address, getObservedCore, h]

/-- Witness for C8: before any observation the query reports no-data. -/
theorem observedAddressCaching_check :
    agent_get_observed_address (some (run initAgent [Call.poll])) =
      (AgentResult.NoData, none) :=
  observedAddressCaching.1 [Call.poll] (by decide)

/-- C9: `agent_timeout_ms` returns the milliseconds until the internal
transport timer fires, and returns 0 both when no timeout is pending and
when the deadline is already due. -/
theorem timeoutSemantics (a : Agent) (now : Nat) :
    (a.timeoutDeadline = none → timeoutMsCore a now = 0) ∧
    (∀ d, a.timeoutDeadline = some d → d ≤ now →
        timeoutMsCore a now = 0) ∧
    (∀ d, a.timeoutDeadline = some d → timeoutMsCore a now = d - now) := by
  refine ⟨?_, ?_, ?_⟩
  · intro h
    simp [timeoutMsCore, h]
  · intro d hd hle
    simp [timeoutMsCore, hd, Nat.sub_eq_zero_of_le hle]
  · intro d hd
    simp [timeoutMsCore, hd]

/-- Witness for C9: no pending deadline reports 0. -/
theorem timeoutSemantics_check : timeoutMsCore initAgent 5 = 0 :=
  (timeoutSemantics initAgent 5).1 rfl

/-- C10: `agent_set_local_addr` with `ip_len < 4` returns
`AgentResultInvalidPointer` — not `AgentResultBufferTooSmall` — and
leaves the Agent unchanged; with a valid handle and `ip_len ≥ 4` it
returns `AgentResultOk`. -/
theorem setLocalAddrValidation (a : Agent) (ip : List Nat) (port : Nat) :
    (ip.length < 4 →
        agent_set_local_addr (some a) ip port =
          (AgentResult.InvalidPointer, some a) ∧
        (agent_set_local_addr (some a) ip port).1 ≠
          AgentResult.BufferTooSmall) ∧
    (4 ≤ ip.length →
        (agent_set_local_addr (some a) ip port).1 = AgentResult.Ok) := by
  constructor
  · intro h
    constructor <;> simp [agent_set_local_addr, setLocalAddrCore, h]
  · intro h
    simp [agent_set_local_addr, setLocalAddrCore, Nat.not_lt.mpr h]

/-- Witness for C10: a two-byte address buffer is rejected as an invalid
pointer and the Agent is untouched. -/
theorem setLocalAddrValidation_check :
    agent_set_local_addr (some initAgent) [10, 0] 9999 =
      (AgentResult.InvalidPointer, some initAgent) :=
  ((setLocalAddrValidation initAgent [10, 0] 9999).1 (by decide)).1

end ZtnaAgent
